import Mathlib

/-!
Shallow embedding of the weather extraction core of
`src/weather_data/weather_extractor.py` (class `UAEWeatherExtractor`).

Texts are `List Char`; Python floats are modelled as exact rationals.
Rational values are constructed through `Rat.divInt` and integer
arithmetic so that concrete runs reduce inside the kernel; bridge lemmas
relate these constructions to the ordinary field operations on `ℚ`.
The HTML document is modelled by the exact pieces the source queries from
the parsed soup: the text of the `span.geo` element, the climate/weather
headings with their following siblings, the rows of the first
`table.infobox`, and the tables with their CSS classes, captions, full
text and row cells.
-/

set_option maxRecDepth 20000

abbrev Str := List Char

/-- Characters removed by Python `str.strip()`. -/
def isPySpace (c : Char) : Bool :=
  c = ' ' || c = '\t' || c = '\n' || c = '\r' || c = '\x0b' || c = '\x0c'

/-- Python `str.strip()`: drop whitespace at both ends. -/
def pyStrip (s : Str) : Str :=
  ((s.dropWhile isPySpace).reverse.dropWhile isPySpace).reverse

/-- Python `str.lower()` (ASCII range, which is all the source compares). -/
def pyLower (s : Str) : Str := s.map Char.toLower

/-- Python's substring test `needle in hay`: some position of `hay` starts
with `needle`. -/
def startsWithStr : Str → Str → Bool
  | _, [] => true
  | [], _ :: _ => false
  | c :: hs, d :: ns => c = d && startsWithStr hs ns

def containsSub (hay needle : Str) : Bool :=
  match hay with
  | [] => needle.isEmpty
  | _ :: rest => startsWithStr hay needle || containsSub rest needle

/-- Python `str.split(sep)` for a one-character separator: n separators
give n+1 (possibly empty) pieces. -/
def pySplit (sep : Char) : Str → List Str
  | [] => [[]]
  | c :: rest =>
    if c = sep then [] :: pySplit sep rest
    else
      match pySplit sep rest with
      | [] => [[c]]
      | p :: ps => (c :: p) :: ps

def isDigitChar (c : Char) : Bool := '0' ≤ c && c ≤ '9'

def digitVal (c : Char) : ℕ := c.toNat - '0'.toNat

def natOfDigits (ds : Str) : ℕ := ds.foldl (fun n c => 10 * n + digitVal c) 0

/-- Exact rational value of the unsigned decimal numeral with integer
digits `ds` and fractional digits `frac`: (ds·10^k + frac) / 10^k. -/
def decimalVal (ds frac : Str) : ℚ :=
  Rat.divInt ((natOfDigits ds * 10 ^ frac.length + natOfDigits frac : ℕ) : ℤ)
    (((10 : ℕ) ^ frac.length : ℕ) : ℤ)

/-- Negation on `ℚ` by numerator sign flip. -/
def qNeg (a : ℚ) : ℚ := Rat.divInt (-a.num) (a.den : ℤ)

/-- Addition on `ℚ` through integer cross-multiplication. -/
def qAdd (a b : ℚ) : ℚ :=
  Rat.divInt (a.num * (b.den : ℤ) + (a.den : ℤ) * b.num) ((a.den : ℤ) * (b.den : ℤ))

/-- Python `sum(...)`: left fold of addition starting from 0. -/
def qSum (l : List ℚ) : ℚ := l.foldl qAdd 0

/-- Division on `ℚ` through integer cross-multiplication. -/
def qDiv (a b : ℚ) : ℚ := Rat.divInt (a.num * (b.den : ℤ)) ((a.den : ℤ) * b.num)

/-- The regex search `re.search(r'(\d+\.?\d*)', s)` followed by `float(...)`
on the matched group: scan to the first digit, take the maximal digit run,
an optional dot, and a further digit run. The pattern has no sign, so any
minus sign before the digits is skipped. -/
def firstNumber : Str → Option ℚ
  | [] => none
  | c :: rest =>
    if isDigitChar c then
      let ds := (c :: rest).takeWhile isDigitChar
      let after := (c :: rest).dropWhile isDigitChar
      let frac :=
        match after with
        | '.' :: r2 => r2.takeWhile isDigitChar
        | _ => []
      some (decimalVal ds frac)
    else firstNumber rest

/-- Python `float(s)` on an already-stripped string, for the signed decimal
forms relevant to coordinate text (no exponent / inf / nan). -/
def parseUnsigned (s : Str) : Option ℚ :=
  let ds := s.takeWhile isDigitChar
  let rest := s.dropWhile isDigitChar
  match rest with
  | [] => if ds.isEmpty then none else some (decimalVal ds [])
  | '.' :: r2 =>
    if r2.all isDigitChar && !(ds.isEmpty && r2.isEmpty) then
      some (decimalVal ds r2)
    else none
  | _ => none

def pyFloat? (s : Str) : Option ℚ :=
  match s with
  | '-' :: r => (parseUnsigned r).map qNeg
  | '+' :: r => parseUnsigned r
  | _ => parseUnsigned s

/-- Python `round(q)` to an integer, on exact rationals: round half to
even. `f` is the floor of `q` (`Int.fdiv` is floor division) and `r` the
remainder numerator, so `q - f = r / q.den` with `0 ≤ r < q.den`. -/
def roundHalfEven (q : ℚ) : ℤ :=
  let f : ℤ := q.num.fdiv (q.den : ℤ)
  let r : ℤ := q.num - f * (q.den : ℤ)
  if 2 * r < (q.den : ℤ) then f
  else if (q.den : ℤ) < 2 * r then f + 1
  else if f % 2 = 0 then f else f + 1

/-- Python `round(q, 1)`: scale by ten, round half to even, scale back. -/
def round1 (q : ℚ) : ℚ :=
  Rat.divInt (roundHalfEven (Rat.divInt (q.num * 10) (q.den : ℤ))) 10

/-- Python truthiness of an optional string: `not value` is true for both
`None` and the empty string. -/
def falsyText : Option Str → Bool
  | none => true
  | some s => s.isEmpty

/-- Python truthiness of an optional number: `not value` is true for both
`None` and `0.0`. -/
def falsyNum : Option ℚ → Bool
  | none => true
  | some q => decide (q = 0)

/-- A block element following a climate heading: tag name and text. -/
structure Sibling where
  name : Str
  text : Str
deriving DecidableEq

/-- One h2/h3 heading whose text matched `Climate|Weather` (case-insensitive),
together with its following siblings in document order. -/
structure Heading where
  siblings : List Sibling
deriving DecidableEq

/-- One `tr` of the infobox: text of its first `th` and first `td`, if any. -/
structure InfoboxRow where
  th : Option Str
  td : Option Str
deriving DecidableEq

/-- One `tr` of a wide table: the texts of its `td`/`th` cells in order. -/
structure TableRow where
  cells : List Str
deriving DecidableEq

/-- One `table` element: CSS classes, caption text if any, full text, rows. -/
structure Table where
  classes : List Str
  caption : Option Str
  fullText : Str
  rows : List TableRow
deriving DecidableEq

/-- The parsed document, as the pieces the extractor queries from it. -/
structure Document where
  geo : Option Str
  climateHeadings : List Heading
  infobox : Option (List InfoboxRow)
  tables : List Table
deriving DecidableEq

/-- The `weather_data` dict built by `extract_weather_from_wikipedia`. -/
structure WeatherRecord where
  city_name : Str
  latitude : Option ℚ
  longitude : Option ℚ
  climate_type : Option Str
  avg_temperature_celsius : Option ℚ
  avg_humidity_percent : Option ℚ
  annual_rainfall_mm : Option ℚ
  hottest_month : Option Str
  coldest_month : Option Str
  weather_description : Option Str
deriving DecidableEq

def emptyRecord (name : Str) : WeatherRecord :=
  ⟨name, none, none, none, none, none, none, none, none, none⟩

/-- Embedding of `_extract_coordinates`. In the source the latitude is
assigned before the longitude text is parsed; an exception raised by the
second `float` is caught by the method-level handler after the latitude
assignment already happened, so only the longitude stays unset then. -/
def extractCoordinates (geo : Option Str) (r : WeatherRecord) : WeatherRecord :=
  match geo with
  | none => r
  | some t =>
    match pySplit ';' (pyStrip t) with
    | [a, b] =>
      match pyFloat? (pyStrip a) with
      | none => r
      | some la =>
        match pyFloat? (pyStrip b) with
        | none => { r with latitude := some la }
        | some lo => { r with latitude := some la, longitude := some lo }
    | _ => r

def isPOrDiv (n : Str) : Bool := decide (n = "p".toList ∨ n = "div".toList)

/-- The sibling walk of `_extract_climate_info`: the `while` guard requires
the sibling's tag to be `p` or `div`, and only `p` text is collected (with
a trailing space). The source's extra break on `h1`–`h4` is subsumed by the
guard, which already excludes headings. -/
def walkSiblings : List Sibling → Str
  | [] => []
  | s :: rest =>
    if isPOrDiv s.name then
      (if s.name = "p".toList then s.text ++ [' '] else []) ++ walkSiblings rest
    else []

/-- Embedding of `_extract_climate_info`: first heading whose collected text
is non-empty sets the description (stripped, then cut to 500 chars) and the
keyword-classified climate type, then the loop breaks. The source's
`find_parent` check is always true for elements inside a parsed page. -/
def extractClimateInfo : List Heading → WeatherRecord → WeatherRecord
  | [], r => r
  | h :: hs, r =>
    let txt := walkSiblings h.siblings
    if pyStrip txt = [] then extractClimateInfo hs r
    else
      let r1 := { r with weather_description := some ((pyStrip txt).take 500) }
      let lower := pyLower txt
      if containsSub lower "desert".toList then
        { r1 with climate_type := some "Desert".toList }
      else if containsSub lower "arid".toList then
        { r1 with climate_type := some "Arid".toList }
      else if containsSub lower "subtropical".toList then
        { r1 with climate_type := some "Subtropical".toList }
      else r1

/-- One row of `_extract_infobox_climate`'s loop. -/
def infoboxRowStep (r : WeatherRecord) (row : InfoboxRow) : WeatherRecord :=
  match row.th, row.td with
  | some th, some td =>
    let headerText := pyLower (pyStrip th)
    let dataText := pyStrip td
    if containsSub headerText "climate".toList && falsyText r.climate_type then
      { r with climate_type := some (dataText.take 50) }
    else if containsSub headerText "temperature".toList
        && falsyNum r.avg_temperature_celsius then
      match firstNumber dataText with
      | some q => { r with avg_temperature_celsius := some q }
      | none => r
    else r
  | _, _ => r

/-- Embedding of `_extract_infobox_climate`. -/
def extractInfoboxClimate (ib : Option (List InfoboxRow)) (r : WeatherRecord) :
    WeatherRecord :=
  match ib with
  | none => r
  | some rows => rows.foldl infoboxRowStep r

/-- The `find_all('table', class_=['wikitable', 'climate-table'])` filter:
only tables carrying one of the two classes are returned at all. -/
def hasClimateClass (t : Table) : Bool :=
  t.classes.any fun c =>
    decide (c = "wikitable".toList) || decide (c = "climate-table".toList)

/-- The in-loop test of `_extract_climate_tables`: caption mentioning
climate/weather, or full table text mentioning both temperature and
rainfall. -/
def captionOrTextCond (t : Table) : Bool :=
  (match t.caption with
   | some cap =>
       containsSub (pyLower cap) "climate".toList
         || containsSub (pyLower cap) "weather".toList
   | none => false)
  || (containsSub (pyLower t.fullText) "temperature".toList
      && containsSub (pyLower t.fullText) "rainfall".toList)

/-- One row of the climate-table loop: label in cell 1, up to 12 monthly
values from cells 2–13 (`cells[1:13]`). -/
def tableRowStep (r : WeatherRecord) (row : TableRow) : WeatherRecord :=
  match row.cells with
  | c0 :: c1 :: cs =>
    let rowHeader := pyLower (pyStrip c0)
    if (containsSub rowHeader "average high".toList
        || containsSub rowHeader "mean maximum".toList)
        && falsyNum r.avg_temperature_celsius then
      let temps := ((c1 :: cs).take 12).filterMap fun c => firstNumber (pyStrip c)
      if temps.isEmpty then r
      else
        let v := round1 (qDiv (qSum temps) ((temps.length : ℕ) : ℚ))
        { r with avg_temperature_celsius := some v }
    else if (containsSub rowHeader "rainfall".toList
        || containsSub rowHeader "precipitation".toList)
        && falsyNum r.annual_rainfall_mm then
      let rains := ((c1 :: cs).take 12).filterMap fun c => firstNumber (pyStrip c)
      if rains.isEmpty then r
      else { r with annual_rainfall_mm := some (round1 (qSum rains)) }
    else r
  | _ => r

def processTable (t : Table) (r : WeatherRecord) : WeatherRecord :=
  t.rows.foldl tableRowStep r

/-- Embedding of `_extract_climate_tables`: iterate the class-filtered
tables, process the rows of those passing the caption/text test. -/
def extractClimateTables (ts : List Table) (r : WeatherRecord) : WeatherRecord :=
  (ts.filter hasClimateClass).foldl
    (fun s t => if captionOrTextCond t then processTable t s else s) r

/-- Embedding of `extract_weather_from_wikipedia` after a successful fetch
and parse: the four passes in the source's fixed order. -/
def extractWeather (name : Str) (doc : Document) : WeatherRecord :=
  extractClimateTables doc.tables
    (extractInfoboxClimate doc.infobox
      (extractClimateInfo doc.climateHeadings
        (extractCoordinates doc.geo (emptyRecord name))))

/-- Embedding of the `extract_all_cities` loop. A fetch failure makes
`extract_weather_from_wikipedia` return `None` (here: no document), the
city is appended to the failed list and the loop continues; a fetched
document yields exactly one record, saved in order. -/
def extractAllCities : List (Str × Option Document) → List WeatherRecord × List Str
  | [] => ([], [])
  | (name, res) :: rest =>
    let out := extractAllCities rest
    match res with
    | some doc => (extractWeather name doc :: out.1, out.2)
    | none => (out.1, name :: out.2)

/-- Candidate predicate written from the spec's words for the climate-table
extractor: "explicitly classed as tabular climate data, OR any table whose
caption text contains climate/weather, OR any table whose full text
contains both temperature and rainfall" — with no overall CSS-class
requirement. -/
def specCandidate (t : Table) : Bool :=
  t.classes.any (fun c => decide (c = "climate-table".toList))
  || (match t.caption with
      | some cap =>
          containsSub (pyLower cap) "climate".toList
            || containsSub (pyLower cap) "weather".toList
      | none => false)
  || (containsSub (pyLower t.fullText) "temperature".toList
      && containsSub (pyLower t.fullText) "rainfall".toList)

/-- An infobox row that could fire either branch of the infobox extractor:
both cells present and the label mentioning climate or temperature. -/
def infoboxRowRelevant (row : InfoboxRow) : Bool :=
  match row.th, row.td with
  | some th, some _ =>
      containsSub (pyLower (pyStrip th)) "climate".toList
        || containsSub (pyLower (pyStrip th)) "temperature".toList
  | _, _ => false

/-! ### Concrete fixtures used by counterexamples and witnesses -/

/-- Document whose infobox sets the average temperature to 0.0 and whose
climate table would also set it. -/
def docZero : Document :=
  ⟨none, [],
   some [⟨some "Temperature".toList, some "0".toList⟩],
   [⟨["wikitable".toList], some "Climate data".toList, "".toList,
     [⟨["average high".toList, "30".toList]⟩]⟩]⟩

/-- Record with truthy climate type, average temperature and rainfall. -/
def rTruthy : WeatherRecord :=
  { emptyRecord "Dubai".toList with
      climate_type := some "Desert".toList,
      avg_temperature_celsius := some 30,
      annual_rainfall_mm := some 5 }

/-- Infobox rows that would overwrite climate type and temperature. -/
def ibOverwrite : List InfoboxRow :=
  [⟨some "Climate".toList, some "Hot desert".toList⟩,
   ⟨some "Temperature".toList, some "41".toList⟩]

/-- A candidate climate table that would overwrite temperature and rain. -/
def tOverwrite : Table :=
  ⟨["wikitable".toList], some "Climate data".toList, "".toList,
   [⟨["average high".toList, "99".toList]⟩, ⟨["rainfall".toList, "99".toList]⟩]⟩

/-- A table with no CSS class but a climate caption and a usable row. -/
def tNoClass : Table :=
  ⟨[], some "Climate data".toList, "".toList,
   [⟨["average high".toList, "30".toList]⟩]⟩

/-- A table classed `climate-table` but with neither a matching caption nor
temperature-and-rainfall text. -/
def tClassOnly : Table :=
  ⟨["climate-table".toList], none, "irrelevant".toList,
   [⟨["average high".toList, "30".toList]⟩]⟩

/-- A heading followed by a paragraph, a list element and a paragraph. -/
def hdgUl : Heading :=
  ⟨[⟨"p".toList, "AAA".toList⟩, ⟨"ul".toList, "X".toList⟩,
    ⟨"p".toList, "BBB".toList⟩]⟩

/-- A heading whose walk crosses a `div` and stops at an `h2`. -/
def hdgMixed : Heading :=
  ⟨[⟨"p".toList, "Hot".toList⟩, ⟨"div".toList, "x".toList⟩,
    ⟨"p".toList, "dry".toList⟩, ⟨"h2".toList, "Next".toList⟩,
    ⟨"p".toList, "ignored".toList⟩]⟩

/-- A heading whose paragraph text strips to 501 characters with a space
at position 500, so the 500-character cut ends in whitespace. -/
def hdgLong : Heading :=
  ⟨[⟨"p".toList, List.replicate 499 'a' ++ " b".toList⟩]⟩

/-- A document containing only a geo element. -/
def docGeoOnly : Document := ⟨some "1; 2".toList, [], none, []⟩

/-- A document with an infobox and a table, none of which matches any
extraction rule. -/
def docIrrelevant : Document :=
  ⟨none, [], some [⟨some "Population".toList, some "3564931".toList⟩],
   [⟨["wikitable".toList], none, "list of mayors".toList,
     [⟨["a".toList, "b".toList]⟩]⟩]⟩

/-! ### Bridge lemmas for the rational layer -/

theorem decimalVal_eq (ds frac : Str) :
    decimalVal ds frac
      = (natOfDigits ds : ℚ) + (natOfDigits frac : ℚ) / (10 : ℚ) ^ frac.length := by
  rw [decimalVal, Rat.divInt_eq_div]
  have h10 : ((10 : ℚ) ^ frac.length) ≠ 0 := by positivity
  push_cast
  field_simp

theorem decimalVal_nonneg (ds frac : Str) : 0 ≤ decimalVal ds frac := by
  rw [decimalVal_eq]
  positivity

theorem qNeg_eq (a : ℚ) : qNeg a = -a := by
  rw [qNeg, Rat.divInt_eq_div]
  push_cast
  rw [neg_div, Rat.num_div_den]

theorem qAdd_eq (a b : ℚ) : qAdd a b = a + b := by
  rw [qAdd, Rat.add_num_den a b]

theorem qDiv_eq (a b : ℚ) : qDiv a b = a / b := by
  rw [qDiv, Rat.div_def']

theorem qSum_eq (l : List ℚ) : qSum l = l.sum := by
  rw [qSum, List.sum_eq_foldl]
  congr 1
  funext x y
  exact qAdd_eq x y

/-! ### Generic fold helpers -/

theorem foldl_preserve {α β : Type} (P : β → Prop) (f : β → α → β)
    (hf : ∀ r a, P r → P (f r a)) :
    ∀ (l : List α) (r : β), P r → P (l.foldl f r) := by
  intro l
  induction l with
  | nil => intro r h; exact h
  | cons a as ih =>
    intro r h
    rw [List.foldl_cons]
    exact ih (f r a) (hf r a h)

theorem foldl_congr_id {α β : Type} (f : β → α → β) :
    ∀ (l : List α) (r : β), (∀ a ∈ l, ∀ s, f s a = s) → l.foldl f r = r := by
  intro l
  induction l with
  | nil => intro r _; rfl
  | cons a as ih =>
    intro r h
    rw [List.foldl_cons, h a (List.mem_cons_self a as) r]
    exact ih r fun b hb s => h b (List.mem_cons_of_mem a hb) s

theorem foldl_filter_if {α β : Type} (p : α → Bool) (f : β → α → β) :
    ∀ (l : List α) (r : β),
      (l.filter p).foldl f r = l.foldl (fun s a => if p a then f s a else s) r := by
  intro l
  induction l with
  | nil => intro r; rfl
  | cons a as ih =>
    intro r
    by_cases h : p a
    · simp [List.filter_cons, h, List.foldl_cons, ih]
    · simp [List.filter_cons, h, List.foldl_cons, ih]

/-! ### Per-step field lemmas -/

theorem infoboxRowStep_fixed (r : WeatherRecord) (row : InfoboxRow) :
    (infoboxRowStep r row).city_name = r.city_name
  ∧ (infoboxRowStep r row).latitude = r.latitude
  ∧ (infoboxRowStep r row).longitude = r.longitude
  ∧ (infoboxRowStep r row).annual_rainfall_mm = r.annual_rainfall_mm
  ∧ (infoboxRowStep r row).weather_description = r.weather_description := by
  obtain ⟨th, td⟩ := row
  cases th with
  | none => cases td <;> exact ⟨rfl, rfl, rfl, rfl, rfl⟩
  | some thv =>
    cases td with
    | none => exact ⟨rfl, rfl, rfl, rfl, rfl⟩
    | some tdv =>
      simp only [infoboxRowStep]
      split_ifs
      · exact ⟨rfl, rfl, rfl, rfl, rfl⟩
      · cases firstNumber (pyStrip tdv) <;> exact ⟨rfl, rfl, rfl, rfl, rfl⟩
      · exact ⟨rfl, rfl, rfl, rfl, rfl⟩

theorem infoboxRowStep_truthy_climate (r : WeatherRecord) (row : InfoboxRow)
    (s : Str) (h : r.climate_type = some s) (hs : s ≠ []) :
    (infoboxRowStep r row).climate_type = some s := by
  have hf : falsyText r.climate_type = false := by
    rw [h]
    cases s with
    | nil => exact absurd rfl hs
    | cons c cs => rfl
  obtain ⟨th, td⟩ := row
  cases th with
  | none => cases td <;> exact h
  | some thv =>
    cases td with
    | none => exact h
    | some tdv =>
      simp only [infoboxRowStep, hf, Bool.and_false, Bool.false_eq_true, if_false]
      split_ifs
      · cases firstNumber (pyStrip tdv) <;> exact h
      · exact h

theorem infoboxRowStep_truthy_avg (r : WeatherRecord) (row : InfoboxRow)
    (q : ℚ) (h : r.avg_temperature_celsius = some q) (hq : q ≠ 0) :
    (infoboxRowStep r row).avg_temperature_celsius = some q := by
  have hf : falsyNum r.avg_temperature_celsius = false := by
    rw [h]
    simp [falsyNum, hq]
  obtain ⟨th, td⟩ := row
  cases th with
  | none => cases td <;> exact h
  | some thv =>
    cases td with
    | none => exact h
    | some tdv =>
      simp only [infoboxRowStep, hf, Bool.and_false, Bool.false_eq_true, if_false]
      split_ifs
      · exact h
      · exact h

theorem tableRowStep_fixed (r : WeatherRecord) (row : TableRow) :
    (tableRowStep r row).city_name = r.city_name
  ∧ (tableRowStep r row).climate_type = r.climate_type
  ∧ (tableRowStep r row).latitude = r.latitude
  ∧ (tableRowStep r row).longitude = r.longitude
  ∧ (tableRowStep r row).weather_description = r.weather_description := by
  obtain ⟨cells⟩ := row
  match cells with
  | [] => exact ⟨rfl, rfl, rfl, rfl, rfl⟩
  | [c0] => exact ⟨rfl, rfl, rfl, rfl, rfl⟩
  | c0 :: c1 :: cs =>
    simp only [tableRowStep]
    split_ifs <;> exact ⟨rfl, rfl, rfl, rfl, rfl⟩

theorem tableRowStep_truthy_avg (r : WeatherRecord) (row : TableRow)
    (q : ℚ) (h : r.avg_temperature_celsius = some q) (hq : q ≠ 0) :
    (tableRowStep r row).avg_temperature_celsius = some q := by
  have hf : falsyNum r.avg_temperature_celsius = false := by
    rw [h]
    simp [falsyNum, hq]
  obtain ⟨cells⟩ := row
  match cells with
  | [] => exact h
  | [c0] => exact h
  | c0 :: c1 :: cs =>
    simp only [tableRowStep, hf, Bool.and_false, Bool.false_eq_true, if_false]
    split_ifs <;> exact h

theorem tableRowStep_truthy_rain (r : WeatherRecord) (row : TableRow)
    (q : ℚ) (h : r.annual_rainfall_mm = some q) (hq : q ≠ 0) :
    (tableRowStep r row).annual_rainfall_mm = some q := by
  have hf : falsyNum r.annual_rainfall_mm = false := by
    rw [h]
    simp [falsyNum, hq]
  obtain ⟨cells⟩ := row
  match cells with
  | [] => exact h
  | [c0] => exact h
  | c0 :: c1 :: cs =>
    simp only [tableRowStep, hf, Bool.and_false, Bool.false_eq_true, if_false]
    split_ifs <;> exact h

theorem infoboxRowStep_irrelevant (row : InfoboxRow)
    (h : infoboxRowRelevant row = false) (r : WeatherRecord) :
    infoboxRowStep r row = r := by
  obtain ⟨th, td⟩ := row
  cases th with
  | none => cases td <;> rfl
  | some thv =>
    cases td with
    | none => rfl
    | some tdv =>
      simp only [infoboxRowRelevant, Bool.or_eq_false_iff] at h
      obtain ⟨h1, h2⟩ := h
      simp only [infoboxRowStep, h1, h2, Bool.false_and, Bool.false_eq_true, if_false]

/-! ### Pass-level lemmas -/

theorem infobox_preserve (P : WeatherRecord → Prop)
    (hstep : ∀ r row, P r → P (infoboxRowStep r row))
    (ib : Option (List InfoboxRow)) (r : WeatherRecord) (h : P r) :
    P (extractInfoboxClimate ib r) := by
  cases ib with
  | none => exact h
  | some rows => exact foldl_preserve P infoboxRowStep hstep rows r h

theorem climateTables_preserve (P : WeatherRecord → Prop)
    (hstep : ∀ r row, P r → P (tableRowStep r row))
    (ts : List Table) (r : WeatherRecord) (h : P r) :
    P (extractClimateTables ts r) := by
  unfold extractClimateTables
  refine foldl_preserve P _ ?_ _ r h
  intro s t hs
  by_cases hc : captionOrTextCond t
  · simp only [hc, if_true]
    exact foldl_preserve P tableRowStep hstep t.rows s hs
  · simp only [hc, if_false]
    exact hs

theorem extractClimateInfo_fixed :
    ∀ (hs : List Heading) (r : WeatherRecord),
      (extractClimateInfo hs r).city_name = r.city_name
    ∧ (extractClimateInfo hs r).latitude = r.latitude
    ∧ (extractClimateInfo hs r).longitude = r.longitude
    ∧ (extractClimateInfo hs r).avg_temperature_celsius = r.avg_temperature_celsius
    ∧ (extractClimateInfo hs r).annual_rainfall_mm = r.annual_rainfall_mm := by
  intro hs
  induction hs with
  | nil => intro r; exact ⟨rfl, rfl, rfl, rfl, rfl⟩
  | cons h rest ih =>
    intro r
    simp only [extractClimateInfo]
    split_ifs
    · exact ih r
    · exact ⟨rfl, rfl, rfl, rfl, rfl⟩
    · exact ⟨rfl, rfl, rfl, rfl, rfl⟩
    · exact ⟨rfl, rfl, rfl, rfl, rfl⟩
    · exact ⟨rfl, rfl, rfl, rfl, rfl⟩

theorem extractCoordinates_fixed (geo : Option Str) (r : WeatherRecord) :
    (extractCoordinates geo r).city_name = r.city_name
  ∧ (extractCoordinates geo r).climate_type = r.climate_type
  ∧ (extractCoordinates geo r).avg_temperature_celsius = r.avg_temperature_celsius
  ∧ (extractCoordinates geo r).annual_rainfall_mm = r.annual_rainfall_mm
  ∧ (extractCoordinates geo r).weather_description = r.weather_description := by
  cases geo with
  | none => exact ⟨rfl, rfl, rfl, rfl, rfl⟩
  | some t =>
    simp only [extractCoordinates]
    split
    · split
      · exact ⟨rfl, rfl, rfl, rfl, rfl⟩
      · split
        · exact ⟨rfl, rfl, rfl, rfl, rfl⟩
        · exact ⟨rfl, rfl, rfl, rfl, rfl⟩
    · exact ⟨rfl, rfl, rfl, rfl, rfl⟩

theorem extractInfoboxClimate_city (ib : Option (List InfoboxRow))
    (r : WeatherRecord) :
    (extractInfoboxClimate ib r).city_name = r.city_name :=
  infobox_preserve (fun x => x.city_name = r.city_name)
    (fun s row hs => ((infoboxRowStep_fixed s row).1).trans hs) ib r rfl

theorem extractClimateTables_city (ts : List Table) (r : WeatherRecord) :
    (extractClimateTables ts r).city_name = r.city_name :=
  climateTables_preserve (fun x => x.city_name = r.city_name)
    (fun s row hs => ((tableRowStep_fixed s row).1).trans hs) ts r rfl

theorem extractWeather_city (name : Str) (doc : Document) :
    (extractWeather name doc).city_name = name := by
  unfold extractWeather
  rw [extractClimateTables_city, extractInfoboxClimate_city,
    (extractClimateInfo_fixed doc.climateHeadings _).1,
    (extractCoordinates_fixed doc.geo _).1]
  rfl

/-! ### Walk and numeric-scan lemmas -/

theorem walkSiblings_eq (sibs : List Sibling) :
    walkSiblings sibs
      = ((sibs.takeWhile fun s => isPOrDiv s.name).filter
          fun s => decide (s.name = "p".toList)).foldr
          (fun s acc => s.text ++ ' ' :: acc) [] := by
  induction sibs with
  | nil => rfl
  | cons s rest ih =>
    by_cases hd : isPOrDiv s.name
    · by_cases hp : s.name = "p".toList
      · have hp2 : decide (s.name = "p".toList) = true := decide_eq_true hp
        simp only [walkSiblings, List.takeWhile, List.filter, hd, hp2, if_pos hp, ih,
          List.foldr_cons, List.append_assoc, List.singleton_append, if_true]
      · have hp2 : decide (s.name = "p".toList) = false := decide_eq_false hp
        simp only [walkSiblings, List.takeWhile, List.filter, hd, hp2, if_neg hp, ih,
          List.nil_append, if_true]
    · have hd2 : isPOrDiv s.name = false := by simpa using hd
      simp only [walkSiblings, List.takeWhile, hd2, if_neg hd, List.filter_nil,
        List.foldr_nil, Bool.false_eq_true, if_false]

theorem description_of_first (h : Heading) (hs : List Heading) (r : WeatherRecord)
    (hne : pyStrip (walkSiblings h.siblings) ≠ []) :
    (extractClimateInfo (h :: hs) r).weather_description
      = some ((pyStrip (walkSiblings h.siblings)).take 500) := by
  simp only [extractClimateInfo]
  split_ifs with h1 h2 h3 h4
  · exact absurd h1 hne
  all_goals rfl

theorem firstNumber_skip (s : Str) :
    ∀ p : Str, (∀ c ∈ p, isDigitChar c = false) → firstNumber (p ++ s) = firstNumber s := by
  intro p
  induction p with
  | nil => intro _; rfl
  | cons c cp ih =>
    intro hp
    have hc : isDigitChar c = false := hp c (List.mem_cons_self c cp)
    simp only [List.cons_append, firstNumber, hc, Bool.false_eq_true, if_false]
    exact ih fun d hd => hp d (List.mem_cons_of_mem c hd)

theorem firstNumber_nonneg (s : Str) : ∀ q : ℚ, firstNumber s = some q → 0 ≤ q := by
  induction s with
  | nil => intro q h; exact Option.noConfusion h
  | cons c rest ih =>
    intro q h
    by_cases hc : isDigitChar c = true
    · simp only [firstNumber] at h
      rw [if_pos hc] at h
      have h2 := Option.some.inj h
      rw [← h2]
      exact decimalVal_nonneg _ _
    · simp only [firstNumber, hc, Bool.false_eq_true, if_false] at h
      exact ih q h

/-! ### Claim C1 -/

/-- Claim C1 is false as stated: after the infobox pass has set
`avg_temperature_celsius` to 0.0 (from the infobox row "Temperature: 0"),
the later climate-table pass overwrites it with 30, because the guard
`not weather_data['avg_temperature_celsius']` treats 0.0 as unset. -/
theorem overwrite_zero_temperature :
    (extractInfoboxClimate docZero.infobox
      (extractClimateInfo docZero.climateHeadings
        (extractCoordinates docZero.geo
          (emptyRecord "Dubai".toList)))).avg_temperature_celsius = some 0
  ∧ (extractWeather "Dubai".toList docZero).avg_temperature_celsius = some 30 := by
  constructor
  · decide
  · decide

/-- Claim C1 (amended): once an earlier pass has set a field to a value that
is truthy in Python (a nonempty string, a nonzero number), no later pass
overwrites it: the infobox pass preserves a truthy climate type and average
temperature, the climate-table pass preserves a truthy average temperature
and annual rainfall and never writes the climate type. A field holding 0.0
or the empty string is treated as unset by the guards and may be
overwritten. -/
theorem truthy_first_wins (r : WeatherRecord) (b : Option (List InfoboxRow))
    (ts : List Table) :
    (∀ s, r.climate_type = some s → s ≠ [] →
      (extractInfoboxClimate b r).climate_type = some s)
  ∧ (∀ q, r.avg_temperature_celsius = some q → q ≠ 0 →
      (extractInfoboxClimate b r).avg_temperature_celsius = some q)
  ∧ (∀ q, r.avg_temperature_celsius = some q → q ≠ 0 →
      (extractClimateTables ts r).avg_temperature_celsius = some q)
  ∧ (∀ q, r.annual_rainfall_mm = some q → q ≠ 0 →
      (extractClimateTables ts r).annual_rainfall_mm = some q)
  ∧ (extractClimateTables ts r).climate_type = r.climate_type := by
  refine ⟨?_, ?_, ?_, ?_, ?_⟩
  · intro s h hsne
    exact infobox_preserve (fun x => x.climate_type = some s)
      (fun x row hx => infoboxRowStep_truthy_climate x row s hx hsne) b r h
  · intro q h hq
    exact infobox_preserve (fun x => x.avg_temperature_celsius = some q)
      (fun x row hx => infoboxRowStep_truthy_avg x row q hx hq) b r h
  · intro q h hq
    exact climateTables_preserve (fun x => x.avg_temperature_celsius = some q)
      (fun x row hx => tableRowStep_truthy_avg x row q hx hq) ts r h
  · intro q h hq
    exact climateTables_preserve (fun x => x.annual_rainfall_mm = some q)
      (fun x row hx => tableRowStep_truthy_rain x row q hx hq) ts r h
  · exact climateTables_preserve (fun x => x.climate_type = r.climate_type)
      (fun x row hx => ((tableRowStep_fixed x row).2.1).trans hx) ts r rfl

theorem truthy_first_wins_witness :
    (extractInfoboxClimate (some ibOverwrite) rTruthy).climate_type
      = some "Desert".toList
  ∧ (extractInfoboxClimate (some ibOverwrite) rTruthy).avg_temperature_celsius
      = some 30
  ∧ (extractClimateTables [tOverwrite] rTruthy).avg_temperature_celsius = some 30
  ∧ (extractClimateTables [tOverwrite] rTruthy).annual_rainfall_mm = some 5 :=
  ⟨(truthy_first_wins rTruthy (some ibOverwrite) [tOverwrite]).1
      "Desert".toList rfl (by decide),
   (truthy_first_wins rTruthy (some ibOverwrite) [tOverwrite]).2.1
      30 rfl (by decide),
   (truthy_first_wins rTruthy (some ibOverwrite) [tOverwrite]).2.2.1
      30 rfl (by decide),
   (truthy_first_wins rTruthy (some ibOverwrite) [tOverwrite]).2.2.2.1
      5 rfl (by decide)⟩

/-! ### Claim C2 -/

/-- Claim C2 is false as stated: on geo text "1; x" the second part fails
float parsing, yet the extractor leaves latitude set to the parsed first
part instead of leaving both fields unset. -/
theorem partial_coordinate_assignment :
    (extractCoordinates (some "1; x".toList)
      (emptyRecord "Dubai".toList)).latitude = some 1
  ∧ (extractCoordinates (some "1; x".toList)
      (emptyRecord "Dubai".toList)).longitude = none := by
  constructor
  · decide
  · decide

/-- Claim C2 (amended): with no geo element or a split into other than two
parts the record is unchanged; if the first part fails float parsing the
record is unchanged; if the first part parses and the second fails, only
latitude is set; if both parse, the two fields hold the exact parsed
values. The extractor is a total function, so the record is never
aborted. -/
theorem coordinate_extraction_cases (r : WeatherRecord) (t a b : Str) :
    extractCoordinates none r = r
  ∧ ((pySplit ';' (pyStrip t)).length ≠ 2 → extractCoordinates (some t) r = r)
  ∧ (pySplit ';' (pyStrip t) = [a, b] →
      (pyFloat? (pyStrip a) = none → extractCoordinates (some t) r = r)
    ∧ (∀ x, pyFloat? (pyStrip a) = some x → pyFloat? (pyStrip b) = none →
        extractCoordinates (some t) r = { r with latitude := some x })
    ∧ (∀ x y, pyFloat? (pyStrip a) = some x → pyFloat? (pyStrip b) = some y →
        extractCoordinates (some t) r
          = { r with latitude := some x, longitude := some y })) := by
  refine ⟨rfl, ?_, ?_⟩
  · intro hlen
    simp only [extractCoordinates]
    split
    · rename_i a' b' heq
      rw [heq] at hlen
      exact absurd rfl hlen
    · rfl
  · intro hsplit
    refine ⟨?_, ?_, ?_⟩
    · intro hna
      simp only [extractCoordinates, hsplit, hna]
    · intro x hia hnb
      simp only [extractCoordinates, hsplit, hia, hnb]
    · intro x y hia hib
      simp only [extractCoordinates, hsplit, hia, hib]

theorem coordinate_extraction_cases_witness :
    extractCoordinates (some "25.2; 55.3".toList) (emptyRecord "Dubai".toList)
      = { emptyRecord "Dubai".toList with
            latitude := some (mkRat 126 5), longitude := some (mkRat 553 10) } :=
  ((coordinate_extraction_cases (emptyRecord "Dubai".toList) "25.2; 55.3".toList
      "25.2".toList " 55.3".toList).2.2 (by decide)).2.2 (mkRat 126 5)
    (mkRat 553 10) (by decide) (by decide)

/-! ### Claim C3 -/

/-- Claim C3 is false as stated: `tNoClass` satisfies the spec's candidacy
(caption contains climate) yet `_extract_climate_tables` never touches the
record, because `find_all` pre-filters on the two CSS classes; processing
the table's rows directly would have set the temperature. Conversely
`tClassOnly` is spec-candidate by class alone, yet is skipped by the
in-loop caption/text test. -/
theorem unclassed_table_skipped :
    specCandidate tNoClass = true
  ∧ (extractClimateTables [tNoClass]
      (emptyRecord "Dubai".toList)).avg_temperature_celsius = none
  ∧ (processTable tNoClass
      (emptyRecord "Dubai".toList)).avg_temperature_celsius = some 30
  ∧ specCandidate tClassOnly = true
  ∧ (extractClimateTables [tClassOnly]
      (emptyRecord "Dubai".toList)).avg_temperature_celsius = none := by
  refine ⟨?_, ?_, ?_, ?_, ?_⟩ <;> decide

/-- Claim C3 (amended): a table's rows are processed exactly when the table
carries CSS class `wikitable` or `climate-table` AND its caption mentions
climate/weather or its full text mentions both temperature and rainfall;
the class alone is not sufficient, and no table lacking both classes is
ever examined. -/
theorem climate_table_selection (ts : List Table) (r : WeatherRecord) :
    extractClimateTables ts r
      = ts.foldl
          (fun s t =>
            if hasClimateClass t && captionOrTextCond t then processTable t s
            else s)
          r := by
  unfold extractClimateTables
  rw [foldl_filter_if]
  have hfun : (fun (s : WeatherRecord) (t : Table) =>
      if hasClimateClass t then
        (if captionOrTextCond t then processTable t s else s)
      else s)
      = fun s t =>
          if hasClimateClass t && captionOrTextCond t then processTable t s
          else s := by
    funext s t
    by_cases h1 : hasClimateClass t <;> by_cases h2 : captionOrTextCond t <;>
      simp [h1, h2]
  rw [hfun]

/-! ### Claim C4 -/

/-- Claim C4 is false as stated: a `ul` sibling between two paragraphs
stops the walk (the loop guard admits only `p` and `div`), so only the
first paragraph's text is stored, not the concatenation of both. -/
theorem list_sibling_stops_walk :
    (extractClimateInfo [hdgUl] (emptyRecord "Dubai".toList)).weather_description
      = some "AAA".toList
  ∧ (extractClimateInfo [hdgUl] (emptyRecord "Dubai".toList)).weather_description
      ≠ some "AAA BBB".toList := by
  constructor
  · decide
  · decide

/-- Claim C4 (amended): for the first climate heading whose collected text
is non-empty, the stored description is the trimmed concatenation truncated
to 500 characters, where the walk runs through the maximal prefix of
siblings tagged `p` or `div` (collecting the text of the `p` ones followed
by a space) and stops at the first sibling of any other tag — headings
included, but also any other block element such as a list. -/
theorem narrative_walk_description (h : Heading) (hs : List Heading)
    (r : WeatherRecord) (hne : pyStrip (walkSiblings h.siblings) ≠ []) :
    (extractClimateInfo (h :: hs) r).weather_description
      = some ((pyStrip (walkSiblings h.siblings)).take 500)
  ∧ ∀ sibs : List Sibling,
      walkSiblings sibs
        = ((sibs.takeWhile fun s => isPOrDiv s.name).filter
            fun s => decide (s.name = "p".toList)).foldr
            (fun s acc => s.text ++ ' ' :: acc) [] :=
  ⟨description_of_first h hs r hne, walkSiblings_eq⟩

theorem narrative_walk_description_witness :
    (extractClimateInfo [hdgMixed]
      (emptyRecord "Dubai".toList)).weather_description = some "Hot dry".toList :=
  ((narrative_walk_description hdgMixed [] (emptyRecord "Dubai".toList)
      (by decide)).1).trans (by decide)

/-! ### Claim C5 -/

/-- Claim C5: a candidate-table row whose label contains "average high" or
"mean maximum", reached with the average temperature unset, sets it to the
mean of the numbers parsed from cells 2–13, rounded to one decimal. -/
theorem avg_high_row_sets_mean (r : WeatherRecord) (c0 : Str) (m : List Str)
    (hl : (containsSub (pyLower (pyStrip c0)) "average high".toList
        || containsSub (pyLower (pyStrip c0)) "mean maximum".toList) = true)
    (hu : r.avg_temperature_celsius = none)
    (hv : (m.take 12).filterMap (fun c => firstNumber (pyStrip c)) ≠ []) :
    (tableRowStep r ⟨c0 :: m⟩).avg_temperature_celsius
      = some (round1 (qDiv
          (qSum ((m.take 12).filterMap fun c => firstNumber (pyStrip c)))
          ((((m.take 12).filterMap fun c => firstNumber (pyStrip c)).length : ℕ)
            : ℚ))) := by
  match m with
  | [] => exact absurd rfl hv
  | c1 :: cs =>
    have hf : falsyNum r.avg_temperature_celsius = true := by rw [hu]; rfl
    have hie : (((c1 :: cs).take 12).filterMap
        fun c => firstNumber (pyStrip c)).isEmpty = false := by
      cases hfm : ((c1 :: cs).take 12).filterMap fun c => firstNumber (pyStrip c) with
      | nil => exact absurd hfm hv
      | cons x xs => rfl
    simp only [tableRowStep, hl, hf, Bool.and_self, eq_self_iff_true, if_true,
      hie, Bool.false_eq_true, if_false]

theorem avg_high_row_sets_mean_witness :
    (tableRowStep (emptyRecord "Dubai".toList)
      ⟨["average high".toList, "10".toList, "12".toList, "n/a".toList,
        "14".toList]⟩).avg_temperature_celsius = some 12 :=
  (avg_high_row_sets_mean (emptyRecord "Dubai".toList) "average high".toList
    ["10".toList, "12".toList, "n/a".toList, "14".toList] (by decide) rfl
    (by decide)).trans (by decide)

/-! ### Claim C6 -/

/-- Claim C6 is false as stated: the rainfall branch is an `elif` behind the
temperature branch, so a row labelled "average high rainfall" (whose label
does contain "rainfall", with annual rainfall unset and a parseable cell)
leaves `annual_rainfall_mm` unset and sets the temperature instead. -/
theorem rainfall_shadowed_by_temperature :
    containsSub (pyLower (pyStrip "average high rainfall".toList))
      "rainfall".toList = true
  ∧ (tableRowStep (emptyRecord "Dubai".toList)
      ⟨["average high rainfall".toList, "5".toList]⟩).annual_rainfall_mm = none
  ∧ (tableRowStep (emptyRecord "Dubai".toList)
      ⟨["average high rainfall".toList, "5".toList]⟩).avg_temperature_celsius
      = some 5 := by
  refine ⟨?_, ?_, ?_⟩ <;> decide

/-- Claim C6 (amended): a candidate-table row whose label contains
"rainfall" or "precipitation", reached with annual rainfall unset and not
captured by the earlier temperature branch (its label does not contain
"average high"/"mean maximum" while the average temperature is falsy), sets
annual rainfall to the sum of the numbers parsed from cells 2–13, rounded
to one decimal. -/
theorem rainfall_row_sets_sum (r : WeatherRecord) (c0 : Str) (m : List Str)
    (hl : (containsSub (pyLower (pyStrip c0)) "rainfall".toList
        || containsSub (pyLower (pyStrip c0)) "precipitation".toList) = true)
    (hshadow : ((containsSub (pyLower (pyStrip c0)) "average high".toList
        || containsSub (pyLower (pyStrip c0)) "mean maximum".toList)
        && falsyNum r.avg_temperature_celsius) = false)
    (hu : r.annual_rainfall_mm = none)
    (hv : (m.take 12).filterMap (fun c => firstNumber (pyStrip c)) ≠ []) :
    (tableRowStep r ⟨c0 :: m⟩).annual_rainfall_mm
      = some (round1
          (qSum ((m.take 12).filterMap fun c => firstNumber (pyStrip c)))) := by
  match m with
  | [] => exact absurd rfl hv
  | c1 :: cs =>
    have hf : falsyNum r.annual_rainfall_mm = true := by rw [hu]; rfl
    have hie : (((c1 :: cs).take 12).filterMap
        fun c => firstNumber (pyStrip c)).isEmpty = false := by
      cases hfm : ((c1 :: cs).take 12).filterMap fun c => firstNumber (pyStrip c) with
      | nil => exact absurd hfm hv
      | cons x xs => rfl
    simp only [tableRowStep, hshadow, hl, hf, Bool.and_self, eq_self_iff_true,
      if_true, hie, Bool.false_eq_true, if_false]

theorem rainfall_row_sets_sum_witness :
    (tableRowStep (emptyRecord "Dubai".toList)
      ⟨["rainfall".toList, "0".toList, "5.5".toList,
        "10".toList]⟩).annual_rainfall_mm = some (mkRat 31 2) :=
  (rainfall_row_sets_sum (emptyRecord "Dubai".toList) "rainfall".toList
    ["0".toList, "5.5".toList, "10".toList] (by decide) (by decide) rfl
    (by decide)).trans (by decide)

/-! ### Claim C7 -/

/-- Claim C7 is false as stated: a document with no climate heading, no
infobox and no table, but with a geo element, meets the claim's conditions
yet yields a record whose latitude is set — the stated conditions forgot
the geo element. -/
theorem geo_only_document_sets_latitude :
    docGeoOnly.climateHeadings = [] ∧ docGeoOnly.infobox = none
  ∧ docGeoOnly.tables = []
  ∧ (extractWeather "Dubai".toList docGeoOnly).latitude = some 1 := by
  refine ⟨rfl, rfl, rfl, ?_⟩
  decide

/-- Claim C7 (amended): extraction is a total function, and a document with
no geo element, no climate heading, no infobox row mentioning climate or
temperature, and no table passing the climate-table selection yields the
record with only the entity name set. -/
theorem empty_document_empty_record (n : Str) (doc : Document)
    (hg : doc.geo = none)
    (hh : doc.climateHeadings = [])
    (hi : ∀ row ∈ doc.infobox.getD [], infoboxRowRelevant row = false)
    (ht : ∀ t ∈ doc.tables, (hasClimateClass t && captionOrTextCond t) = false) :
    extractWeather n doc = emptyRecord n := by
  have h1 : extractInfoboxClimate doc.infobox (emptyRecord n) = emptyRecord n := by
    cases hib : doc.infobox with
    | none => rfl
    | some rows =>
      refine foldl_congr_id infoboxRowStep rows (emptyRecord n) ?_
      intro row hrow s
      refine infoboxRowStep_irrelevant row ?_ s
      have hrel := hi row
      rw [hib] at hrel
      exact hrel hrow
  have h2 : ∀ x : WeatherRecord, extractClimateTables doc.tables x = x := by
    intro x
    unfold extractClimateTables
    refine foldl_congr_id _ _ _ ?_
    intro t htf s
    have hmem := List.mem_filter.mp htf
    have hcc : hasClimateClass t = true := hmem.2
    have hco := ht t hmem.1
    rw [hcc, Bool.true_and] at hco
    rw [hco]
    simp
  unfold extractWeather
  rw [hg, hh]
  show extractClimateTables doc.tables
    (extractInfoboxClimate doc.infobox (emptyRecord n)) = emptyRecord n
  rw [h1]
  exact h2 (emptyRecord n)

theorem empty_document_empty_record_witness :
    extractWeather "Ajman".toList docIrrelevant = emptyRecord "Ajman".toList :=
  empty_document_empty_record "Ajman".toList docIrrelevant rfl rfl (by decide)
    (by decide)

/-! ### Claim C8 -/

/-- Claim C8: over any run, the saved records are exactly the successfully
fetched entities (one record each, in order, named after the entity) and
the failed list is exactly the entities whose fetch failed, so the two
outcomes partition the input; a failure never stops later entities. -/
theorem all_cities_partition (cities : List (Str × Option Document)) :
    (extractAllCities cities).1.map (fun r => r.city_name)
      = (cities.filter fun c => c.2.isSome).map (fun c => c.1)
  ∧ (extractAllCities cities).2
      = (cities.filter fun c => c.2.isNone).map (fun c => c.1)
  ∧ (extractAllCities cities).1.length + (extractAllCities cities).2.length
      = cities.length := by
  induction cities with
  | nil => exact ⟨rfl, rfl, rfl⟩
  | cons c cs ih =>
    obtain ⟨h1, h2, h3⟩ := ih
    obtain ⟨name, res⟩ := c
    cases res with
    | some doc =>
      refine ⟨?_, ?_, ?_⟩
      · simp only [extractAllCities, List.map_cons, List.filter_cons,
          Option.isSome_some, if_true, extractWeather_city, h1]
      · simp only [extractAllCities, List.filter_cons, Option.isNone_some,
          Bool.false_eq_true, if_false, h2]
      · simp only [extractAllCities, List.length_cons]
        omega
    | none =>
      refine ⟨?_, ?_, ?_⟩
      · simp only [extractAllCities, List.filter_cons, Option.isSome_none,
          Bool.false_eq_true, if_false, h1]
      · simp only [extractAllCities, List.map_cons, List.filter_cons,
          Option.isNone_none, if_true, h2]
      · simp only [extractAllCities, List.length_cons]
        omega

/-! ### Claim C9 -/

/-- Claim C9 is false as stated: stripping happens before the 500-character
cut, so a stored description can end in whitespace (and the extractor
performs no Unicode normalization at all). Here the paragraph text strips
to 501 characters with a space at position 500, and the stored value is
499 letters followed by a trailing space. -/
theorem truncation_trailing_space :
    (extractClimateInfo [hdgLong]
      (emptyRecord "Dubai".toList)).weather_description
      = some (List.replicate 499 'a' ++ [' '])
  ∧ (List.replicate 499 'a' ++ [' ']).getLast? = some ' ' := by
  constructor
  · decide
  · decide

/-- Claim C9 (amended): text fields are stored as the stripped text cut to
the length cap, with no further transformation: the infobox stores the data
cell's stripped text cut to 50 characters as the climate type, and the
narrative extractor stores the stripped walk text cut to 500 characters as
the description. Because the cap is applied after stripping, a truncated
value may end in whitespace, and no Unicode normalization is performed. -/
theorem stored_text_strip_before_cap (th td : Str) (r : WeatherRecord)
    (h1 : containsSub (pyLower (pyStrip th)) "climate".toList = true)
    (h2 : falsyText r.climate_type = true) :
    (infoboxRowStep r ⟨some th, some td⟩).climate_type
      = some ((pyStrip td).take 50)
  ∧ ∀ (g : Heading) (gs : List Heading) (x : WeatherRecord),
      pyStrip (walkSiblings g.siblings) ≠ [] →
      (extractClimateInfo (g :: gs) x).weather_description
        = some ((pyStrip (walkSiblings g.siblings)).take 500) := by
  constructor
  · simp only [infoboxRowStep, h1, h2, Bool.and_self, eq_self_iff_true, if_true]
  · intro g gs x hne
    exact description_of_first g gs x hne

theorem stored_text_strip_before_cap_witness :
    (infoboxRowStep (emptyRecord "Dubai".toList)
      ⟨some "Climate".toList,
       some "  Hot desert climate (BWh)  ".toList⟩).climate_type
      = some "Hot desert climate (BWh)".toList :=
  ((stored_text_strip_before_cap "Climate".toList
      "  Hot desert climate (BWh)  ".toList (emptyRecord "Dubai".toList)
      (by decide) rfl).1).trans (by decide)

/-! ### Claim C10 -/

/-- Claim C10: the numeric pattern `(\d+\.?\d*)` used by the infobox and
climate-table extractors is unsigned: characters before the first digit —
a minus sign included — are skipped, and every extracted value is
nonnegative, so "-5" and "−5.2" yield the magnitudes 5 and 5.2. -/
theorem first_number_unsigned (p s : Str)
    (hp : ∀ c ∈ p, isDigitChar c = false) :
    firstNumber (p ++ s) = firstNumber s
  ∧ ∀ q : ℚ, firstNumber s = some q → 0 ≤ q :=
  ⟨firstNumber_skip s p hp, firstNumber_nonneg s⟩

theorem first_number_unsigned_witness :
    firstNumber "-5".toList = some 5
  ∧ firstNumber "−5.2".toList = some (mkRat 26 5)
  ∧ (0 : ℚ) ≤ mkRat 26 5 := by
  have h := first_number_unsigned "−".toList "5.2".toList (by decide)
  refine ⟨by decide, ?_, ?_⟩
  · have he : "−5.2".toList = "−".toList ++ "5.2".toList := by decide
    rw [he, h.1]
    decide
  · exact h.2 (mkRat 26 5) (by decide)
